import Mathlib

/-!
Verification of the job-runner core in `src/agents/run.py`.

The Python source is shallowly embedded below.  External collaborators
(the JSON library, the OpenAI client, the Google Docs/Drive clients and
the Notion queue) are modelled as explicit parameters describing the
outcome of each call; everything the repository itself computes is
translated directly.  Python floats are modelled as rationals and Python
strings as Lean strings (sequences of characters).
-/

namespace Ranemos

/-- The character U+007B (opening curly bracket). -/
def lbrace : Char := Char.ofNat 123

/-- The character U+007D (closing curly bracket). -/
def rbrace : Char := Char.ofNat 125

/-- Python `s[:n]` on a string: the first `n` characters. -/
def strTake (n : Nat) (s : String) : String := ⟨s.data.take n⟩

/-- Python `s[a:b]` on a string. -/
def strSlice (s : String) (a b : Nat) : String := ⟨(s.data.drop a).take (b - a)⟩

/-- Python `s.find(c)` for a single character, as an optional index
(`None` standing for the source's `-1`). -/
def strFind (s : String) (c : Char) : Option Nat :=
  s.data.findIdx? (fun x => x = c)

/-- Python `s.rfind(c)` for a single character: the highest index at which
`c` occurs, as an optional index. -/
def strRFind (s : String) (c : Char) : Option Nat :=
  match s.data.reverse.findIdx? (fun x => x = c) with
  | some i => some (s.data.length - 1 - i)
  | Option.none => Option.none

/-- Python `s.strip()` restricted to ASCII whitespace: drop whitespace
characters from both ends. -/
def pyStrip (s : String) : String :=
  ⟨((s.data.dropWhile Char.isWhitespace).reverse.dropWhile Char.isWhitespace).reverse⟩

/-- Values produced by `json.loads`: the JSON fragment of Python's data
model that the adapter inspects. -/
inductive PyVal where
  | none
  | bool (b : Bool)
  | num (q : ℚ)
  | str (s : String)
  | list (xs : List PyVal)
  | dict (fields : List (String × PyVal))

/-- Python truthiness on `PyVal` (`bool(v)`). -/
def pyTruthy : PyVal → Bool
  | PyVal.none => false
  | PyVal.bool b => b
  | PyVal.num q => q != 0
  | PyVal.str s => s != ""
  | PyVal.list xs => !xs.isEmpty
  | PyVal.dict fs => !fs.isEmpty

/-- Python `d.get(k)` on a dict value (keys are unique, first match). -/
def dictGet (fields : List (String × PyVal)) (k : String) : Option PyVal :=
  match fields with
  | [] => Option.none
  | (k₀, v) :: rest => if k₀ = k then some v else dictGet rest k

/-- Digit run to a natural number. -/
def digitsToNat (l : List Char) : Nat :=
  l.foldl (fun a c => a * 10 + (c.toNat - 48)) 0

/-- Unsigned part of a Python float literal: digits with an optional
decimal point (exponents and `inf`/`nan` are rejected). -/
def parseUnsigned (l : List Char) : Option ℚ :=
  let intPart := l.takeWhile Char.isDigit
  let rest := l.dropWhile Char.isDigit
  match rest with
  | [] => if intPart.isEmpty then Option.none else some ((digitsToNat intPart : ℚ))
  | c :: cs =>
    if c = '.' then
      let fracPart := cs.takeWhile Char.isDigit
      let rest2 := cs.dropWhile Char.isDigit
      if rest2.isEmpty && (!intPart.isEmpty || !fracPart.isEmpty) then
        some ((digitsToNat intPart : ℚ) + (digitsToNat fracPart : ℚ) / (10 ^ fracPart.length))
      else Option.none
    else Option.none

/-- Python `float(s)` on a string: strip whitespace, optional sign,
decimal literal.  `None` models the raised `ValueError`. -/
def parsePyFloatStr (s : String) : Option ℚ :=
  match (pyStrip s).data with
  | [] => Option.none
  | c :: cs =>
    if c = '-' then (parseUnsigned cs).map Neg.neg
    else if c = '+' then parseUnsigned cs
    else parseUnsigned (c :: cs)

/-- Python `float(v)`: `None` models the raised `TypeError`/`ValueError`
for inconvertible values. -/
def pyFloat : PyVal → Option ℚ
  | PyVal.num q => some q
  | PyVal.bool b => some (if b then 1 else 0)
  | PyVal.str s => parsePyFloatStr s
  | _ => Option.none

/-- Python `x or d` for an optional string (`None` and `""` are falsy). -/
def pyOrStr (v : Option String) (d : String) : String :=
  match v with
  | some s => if s = "" then d else s
  | Option.none => d

/-- Python `x or d` for an optional number (`None` and `0` are falsy). -/
def pyOrNum (v : Option ℚ) (d : ℚ) : ℚ :=
  match v with
  | some q => if q = 0 then d else q
  | Option.none => d

/-- Python truthiness of an optional environment-variable string. -/
def keyPresent : Option String → Bool
  | some s => s != ""
  | Option.none => false

/-- Configuration read by the model adapter: `OPENAI_API_KEY` and whether
the `openai` package imported. -/
structure ModelConfig where
  openai_api_key : Option String
  openaiAvailable : Bool

/-- `not OPENAI_API_KEY or OpenAI is None` negated: the adapter goes
online exactly when a key is set and the client library imported. -/
def onlineModel (cfg : ModelConfig) : Bool :=
  keyPresent cfg.openai_api_key && cfg.openaiAvailable

/-- Outcome of the `client.responses.create` call together with the
output-text extraction (lines 216-233 of `run.py`): the call either
raises, or some output text is obtained (the extraction itself never
fails upward — its last resort is `str(resp)`). -/
inductive ApiOutcome where
  | raises (msg : String)
  | returns (output_text : String)

/-- The dictionary returned by `call_model`: keys `text`, `confidence`,
`title`.  `confidence` is always a float by construction; `text` and
`title` are whatever values the parsed JSON supplied. -/
structure ModelResult where
  text : PyVal
  confidence : ℚ
  title : PyVal

/-- The `except Exception` return value of `call_model` (line 250). -/
def modelErrorResult (msg : String) : ModelResult :=
  ⟨PyVal.str ("[MODEL ERROR]\n" ++ msg), 0, PyVal.none⟩

/-- Lines 234-241 of `run.py`: try `json.loads` on the whole output; if
that fails, retry on the substring from the first curly bracket to the
last one (exclusive parse failures on the substring also leave no dict,
which the caller turns into the error result). -/
def extract_data (loads : String → Option PyVal) (output_text : String) : Option PyVal :=
  match loads output_text with
  | some v => some v
  | Option.none =>
    match strFind output_text lbrace, strRFind output_text rbrace with
    | some start, some stop =>
        if start < stop then loads (strSlice output_text start (stop + 1)) else Option.none
    | some _, Option.none => Option.none
    | Option.none, _ => Option.none

/-- `call_model` (lines 193-250): offline stub when no key / no client;
otherwise the API call outcome is examined, the JSON payload extracted
and the three fields read out.  Every failure path of the source's
`try` block funnels into `modelErrorResult`. -/
def call_model (cfg : ModelConfig) (loads : String → Option PyVal)
    (api : ApiOutcome) (prompt : String) : ModelResult :=
  if onlineModel cfg then
    match api with
    | ApiOutcome.raises msg => modelErrorResult msg
    | ApiOutcome.returns output_text =>
      match extract_data loads output_text with
      | some (PyVal.dict fields) =>
        let tv := (dictGet fields "text").getD PyVal.none
        let text := if pyTruthy tv then tv else PyVal.str ""
        match pyFloat ((dictGet fields "confidence").getD (PyVal.num (mkRat 7 10))) with
        | some conf => ⟨text, conf, (dictGet fields "title").getD PyVal.none⟩
        | Option.none => modelErrorResult "could not convert string to float"
      | _ => modelErrorResult "Model did not return dict JSON."
  else
    ⟨PyVal.str ("[OFFLINE DUMMY OUTPUT]\n\n" ++ strTake 2000 prompt), mkRat 7 10, PyVal.none⟩

/-- Configuration read by the document publisher: `DRIVE_SA_JSON` and
whether the Google client libraries imported. -/
structure DriveConfig where
  drive_sa_json : Option String
  googleApisAvailable : Bool

/-- Result of `init_gdrive_clients` (lines 144-155). -/
inductive InitClients where
  | noClients
  | clients
  | raisesJson

/-- `init_gdrive_clients`: `(None, None)` when unconfigured; otherwise
`json.loads(DRIVE_SA_JSON)` runs outside any `try`, so a malformed
credential string raises out of the function (`raisesJson`).
Credential-object and discovery construction are assumed to succeed. -/
def init_gdrive_clients (cfg : DriveConfig) (loads : String → Option PyVal) : InitClients :=
  match cfg.drive_sa_json with
  | Option.none => InitClients.noClients
  | some sa =>
    if sa == "" || !cfg.googleApisAvailable then InitClients.noClients
    else
      match loads sa with
      | Option.none => InitClients.raisesJson
      | some _ => InitClients.clients

/-- Outcome of the Docs/Drive `.execute()` calls inside the `try` of
`create_google_doc`: success with a document id, an `HttpError`, or any
other exception (transport failure, unreachable host, ...). -/
inductive ExecOutcome where
  | ok (doc_id : String)
  | httpError (msg : String)
  | raisesOther (msg : String)

/-- `title.replace(' ', '_')`. -/
def underscoreTitle (t : String) : String :=
  ⟨t.data.map (fun c => if c = ' ' then '_' else c)⟩

/-- `create_google_doc` (lines 157-191).  `Option.none` models an
exception propagating to the caller: the source catches `HttpError`
only, and `init_gdrive_clients` can itself raise. -/
def create_google_doc (cfg : DriveConfig) (loads : String → Option PyVal)
    (outcome : ExecOutcome) (title markdown_text : String) : Option String :=
  match init_gdrive_clients cfg loads with
  | InitClients.raisesJson => Option.none
  | InitClients.noClients => some ("about:blank#" ++ underscoreTitle title)
  | InitClients.clients =>
    match outcome with
    | ExecOutcome.ok doc_id => some ("https://docs.google.com/document/d/" ++ doc_id ++ "/edit")
    | ExecOutcome.httpError e => some ("about:blank#error=" ++ e)
    | ExecOutcome.raisesOther _ => Option.none

/-- One entry of the `Inputs` files property.  `extUrl` is the content
of the key `"external"` when present (itself holding an optional
`"url"`), `fileUrl` likewise for the key `"file"`. -/
structure InputRef where
  extUrl : Option (Option String)
  fileUrl : Option (Option String)

/-- The lines appended for one input entry (lines 262-267 of `run.py`):
the key `"external"` is inspected before `"file"`, and a line is added
only for a truthy (non-empty) url. -/
def refUrlLines (f : InputRef) : List String :=
  (match f.extUrl with
   | some (some url) => if url = "" then [] else ["- " ++ url]
   | some Option.none => []
   | Option.none => []) ++
  (match f.fileUrl with
   | some (some url) => if url = "" then [] else ["- " ++ url]
   | some Option.none => []
   | Option.none => [])

/-- `build_prompt` (lines 252-269). -/
def build_prompt (name agent_type context : String) (inputs : List InputRef)
    (publish_mode : String) : String :=
  let base := ["JOB: " ++ name,
    "AGENT TYPE: " ++ (if agent_type = "" then "General" else agent_type),
    "PUBLISH MODE: " ++ (if publish_mode = "" then "Needs Review" else publish_mode)]
  let ctx := if context = "" then [] else ["CONTEXT:", context]
  let links :=
    if inputs.isEmpty then [] else "INPUT LINKS:" :: inputs.flatMap refUrlLines
  let deliverable := ["\nDELIVERABLE: Draft the artifact in clean Markdown suitable for direct publishing. Avoid placeholders, be specific, add headings where helpful.\n"]
  String.intercalate "\n" (base ++ ctx ++ links ++ deliverable)

/-- The PATCH payload assembled by `notion_update_status`
(lines 129-142), before it is handed to the HTTP client. -/
structure StatusUpdate where
  page_id : String
  status : String
  proofUrl : Option String
  confidence : Option ℚ
  proofNote : Option String

/-- `notion_update_status`: the note is truncated with `note[:2000]`. -/
def notion_update_status (page_id status : String) (proof_url : Option String)
    (confidence : Option ℚ) (note : Option String) : StatusUpdate :=
  ⟨page_id, status, proof_url, confidence, note.map (strTake 2000)⟩

/-- The job fields `main` extracts from a queue page via
`notion_get_prop` (lines 276-282), before the `or`-defaults. -/
structure Page where
  id : String
  name : Option String
  agentType : Option String
  context : Option String
  inputs : Option (List InputRef)
  publishMode : Option String
  confidenceGate : Option ℚ

/-- Line 294 of `run.py`:
`"Done" if (mode == "Auto" and conf >= gate) else "Needs Review"`. -/
def decideStatus (mode : String) (conf gate : ℚ) : String :=
  if mode = "Auto" ∧ conf ≥ gate then "Done" else "Needs Review"

/-- The prompt `main` builds for a page, with the `or`-defaults of
lines 277-281 applied. -/
def pagePrompt (page : Page) : String :=
  build_prompt (pyOrStr page.name "Untitled") (pyOrStr page.agentType "General")
    (pyOrStr page.context "") (page.inputs.getD []) (pyOrStr page.publishMode "Needs Review")

/-- Line 289, `result.get("text","").strip()`: defined when the text
field is a string; any other value has no `.strip` attribute and the
raised `AttributeError` aborts the run (`Option.none`). -/
def stripOrCrash : PyVal → Option String
  | PyVal.str s => some (pyStrip s)
  | _ => Option.none

/-- Externally observable actions of `main`'s per-page loop, in order.
Queue writes carry the fields sent (display-only note text omitted). -/
inductive Event where
  | updateStatus (status : String) (proofUrl : Option String) (confidence : Option ℚ)
  | modelCall (prompt : String)
  | publish (title : String) (body : String)
deriving DecidableEq

/-- The body of `main`'s loop for one page (lines 275-296), as the list
of actions performed.  A crash (non-string text at line 289, or an
uncaught publisher exception) truncates the list at the failing call. -/
def process_page (mcfg : ModelConfig) (dcfg : DriveConfig)
    (loads : String → Option PyVal) (api : ApiOutcome) (doc : ExecOutcome)
    (page : Page) : List Event :=
  let name := pyOrStr page.name "Untitled"
  let mode := pyOrStr page.publishMode "Needs Review"
  let gate := pyOrNum page.confidenceGate (mkRat 7 10)
  let prompt := pagePrompt page
  let result := call_model mcfg loads api prompt
  let running := Event.updateStatus "Running" Option.none Option.none
  match stripOrCrash result.text with
  | Option.none => [running, Event.modelCall prompt]
  | some text =>
    let conf := result.confidence
    let body := if text = "" then "(empty output for " ++ name ++ ")" else text
    match create_google_doc dcfg loads doc name body with
    | Option.none => [running, Event.modelCall prompt, Event.publish name body]
    | some proof_url =>
      [running, Event.modelCall prompt, Event.publish name body,
       Event.updateStatus (decideStatus mode conf gate) (some proof_url) (some conf)]

/-- External side effects in the sense of the lifecycle contract: the
model call and the document publish. -/
def isSideEffect : Event → Bool
  | Event.modelCall _ => true
  | Event.publish _ _ => true
  | Event.updateStatus _ _ _ => false

/-- A queue write of a terminal status. -/
def isTerminalWrite : Event → Bool
  | Event.updateStatus s _ _ => s == "Done" || s == "Needs Review"
  | _ => false

/-- The terminal statuses written in a trace, in order. -/
def terminalStatuses (tr : List Event) : List String :=
  tr.filterMap (fun e =>
    match e with
    | Event.updateStatus s _ _ =>
        if s == "Done" || s == "Needs Review" then some s else Option.none
    | _ => Option.none)

/-- Modelled from the spec's words, for comparison with `refUrlLines`:
the non-empty URLs a single input reference carries (external entry,
then file entry). -/
def carriedUrls (f : InputRef) : List String :=
  (match f.extUrl with
   | some (some url) => if url = "" then [] else [url]
   | some Option.none => []
   | Option.none => []) ++
  (match f.fileUrl with
   | some (some url) => if url = "" then [] else [url]
   | some Option.none => []
   | Option.none => [])

/-! Concrete fixtures used by witnesses and counterexamples. -/

/-- An online model configuration (API key set, client importable). -/
def onlineMCfg : ModelConfig := ⟨some "k", true⟩

/-- An offline model configuration (no API key). -/
def offlineMCfg : ModelConfig := ⟨Option.none, false⟩

/-- A drive configuration with no service-account JSON. -/
def noDriveCfg : DriveConfig := ⟨Option.none, true⟩

/-- A JSON oracle for runs in which no parsed payload is ever needed:
every input fails to parse. -/
def loadsNone : String → Option PyVal := fun _ => Option.none

/-- A queue page in `Auto` mode whose stored confidence gate is `0.0`. -/
def gateZeroPage : Page :=
  ⟨"pg", some "Job", Option.none, Option.none, Option.none, some "Auto", some 0⟩

/-- The lines of a character sequence, split on the newline character
(used only to state properties of the built prompt). -/
def splitNl : List Char → List (List Char)
  | [] => [[]]
  | c :: cs =>
    if c = '\n' then [] :: splitNl cs
    else
      match splitNl cs with
      | [] => [[c]]
      | h :: t => (c :: h) :: t

/-- Whether a line is a URL bullet line of the prompt (starts with
a dash and a space). -/
def isUrlLine : List Char → Bool
  | c1 :: c2 :: _ => c1 = '-' && c2 = ' '
  | _ => false

/-- The number of URL bullet lines in a prompt. -/
def urlLineCount (s : String) : Nat :=
  ((splitNl s.data).filter isUrlLine).length

/-- The input list of the spec's filtering example:
a file entry with no URL, then an external entry with URL `https://x`. -/
def exampleInputs : List InputRef :=
  [⟨Option.none, some Option.none⟩, ⟨some (some "https://x"), Option.none⟩]

/-! Claim theorems. -/

/-- C1: the terminal status is `Done` iff the job's publish mode equals
`"Auto"` and the model confidence is at least the gate threshold, and
`Needs Review` in every other case. -/
theorem C1_gate_decision (mode : String) (conf gate : ℚ) :
    (decideStatus mode conf gate = "Done" ↔ (mode = "Auto" ∧ conf ≥ gate)) ∧
    (decideStatus mode conf gate = "Needs Review" ↔ ¬(mode = "Auto" ∧ conf ≥ gate)) := by
  unfold decideStatus
  by_cases h : mode = "Auto" ∧ conf ≥ gate <;> simp [h]

/-- C5 counterexample: a job that carries the gate value `0.0` is not
evaluated against its own gate — the Python `or` default replaces a
stored `0` by `0.7`, so a zero-confidence failure in `Auto` mode ends in
`Needs Review` although `decide` on the job's own gate would say `Done`. -/
theorem C5_counterexample :
    pyOrNum (some (0 : ℚ)) (mkRat 7 10) = mkRat 7 10 ∧ mkRat 7 10 ≠ 0 ∧
    terminalStatuses (process_page onlineMCfg noDriveCfg loadsNone
      (ApiOutcome.raises "network down") (ExecOutcome.ok "d") gateZeroPage) =
      ["Needs Review"] ∧
    decideStatus "Auto" 0 ((gateZeroPage.confidenceGate).getD 1) = "Done" := by
  refine ⟨rfl, by decide, by decide, by decide⟩

/-- C5 (amended): the gate evaluation uses the job's stored
`confidenceGate` whenever it is present and nonzero, and substitutes the
default `0.7` when the value is absent — or stored as `0`, which Python's
`or` treats like absence. -/
theorem C5_gate_amended (g : ℚ) :
    (g ≠ 0 → pyOrNum (some g) (mkRat 7 10) = g) ∧
    pyOrNum Option.none (mkRat 7 10) = mkRat 7 10 := by
  constructor
  · intro h; simp [pyOrNum, h]
  · rfl

/-- C5 witness: a nonzero stored gate is used unchanged. -/
theorem C5_gate_amended_witness : pyOrNum (some (mkRat 1 2)) (mkRat 7 10) = mkRat 1 2 :=
  (C5_gate_amended (mkRat 1 2)).1 (by decide)

/-- The per-reference URL lines are exactly the reference's non-empty
URLs, each prefixed by the bullet. -/
theorem refUrlLines_eq_carried (f : InputRef) :
    refUrlLines f = (carriedUrls f).map (fun u => "- " ++ u) := by
  obtain ⟨e, fl⟩ := f
  rcases e with _ | (_ | u) <;> rcases fl with _ | (_ | v) <;>
    simp only [refUrlLines, carriedUrls] <;> (try split_ifs) <;> simp

set_option maxRecDepth 8000 in
/-- C7: the prompt's URL list contains one bullet line per non-empty URL
carried by the input references, skipping URL-less entries; on the
spec's example `[file:, external:https://x]` exactly one URL line
appears. -/
theorem C7_input_filtering (inputs : List InputRef) :
    inputs.flatMap refUrlLines =
      (inputs.flatMap carriedUrls).map (fun u => "- " ++ u) ∧
    exampleInputs.flatMap refUrlLines = ["- https://x"] ∧
    urlLineCount (build_prompt "N" "General" "" exampleInputs "Auto") = 1 := by
  refine ⟨?_, by decide, by decide⟩
  induction inputs with
  | nil => rfl
  | cons f rest ih => simp [refUrlLines_eq_carried, ih]

/-- C8: the note sent to the queue client is unchanged when it has at
most 2000 characters, and is cut to exactly its first 2000 characters
otherwise. -/
theorem C8_note_truncation (page_id status : String) (pu : Option String)
    (c : Option ℚ) (note : String) :
    (note.data.length ≤ 2000 →
      (notion_update_status page_id status pu c (some note)).proofNote = some note) ∧
    (2000 < note.data.length →
      ∃ t, (notion_update_status page_id status pu c (some note)).proofNote = some t ∧
        t.data.length = 2000 ∧ ∀ i, i < 2000 → t.data[i]? = note.data[i]?) := by
  constructor
  · intro h
    have ht : strTake 2000 note = note := by
      simp only [strTake, List.take_of_length_le h]
    simp [notion_update_status, ht]
  · intro h
    refine ⟨⟨note.data.take 2000⟩, rfl, ?_, ?_⟩
    · simp only [List.length_take]; omega
    · intro i hi; exact List.getElem?_take_of_lt hi

/-- C8 witness: a short note passes unchanged; a 2001-character note is
cut to 2000 characters agreeing with the original position by position. -/
theorem C8_note_truncation_witness :
    (notion_update_status "p" "Done" Option.none Option.none (some "hi")).proofNote
      = some "hi" ∧
    ∃ t, (notion_update_status "p" "Done" Option.none Option.none
        (some ⟨List.replicate 2001 'a'⟩)).proofNote = some t ∧
      t.data.length = 2000 ∧
      ∀ i, i < 2000 → t.data[i]? = (⟨List.replicate 2001 'a'⟩ : String).data[i]? := by
  constructor
  · exact (C8_note_truncation "p" "Done" Option.none Option.none "hi").1 (by decide)
  · refine (C8_note_truncation "p" "Done" Option.none Option.none
      ⟨List.replicate 2001 'a'⟩).2 ?_
    show 2000 < (List.replicate 2001 'a').length
    rw [List.length_replicate]
    norm_num

/-- The degraded result shape promised by the adapter contract:
confidence `0` and text beginning with the error marker. -/
def isErrorResult (r : ModelResult) : Bool :=
  (r.confidence == 0) &&
  (match r.text with
   | PyVal.str s => "[MODEL ERROR]".data.isPrefixOf s.data
   | _ => false)

/-- Both terminal strings satisfy the terminal-write predicate. -/
theorem decideStatus_terminal (m : String) (c g : ℚ) :
    (decideStatus m c g == "Done" || decideStatus m c g == "Needs Review") = true := by
  unfold decideStatus
  split_ifs <;> rfl

/-- The terminal statuses of a completed four-event trace consist of the
gate decision alone. -/
theorem terminalStatuses_full (p t b m : String) (c g : ℚ) (pu : Option String) :
    terminalStatuses [Event.updateStatus "Running" Option.none Option.none,
      Event.modelCall p, Event.publish t b,
      Event.updateStatus (decideStatus m c g) pu (some c)] = [decideStatus m c g] := by
  unfold terminalStatuses decideStatus
  split_ifs <;> rfl

/-- C2: on every failure of the online call path — the API raising, a
payload with no JSON dictionary, or a confidence value `float()` cannot
convert — `call_model` answers (it cannot raise: it is a total function)
with confidence `0` and error-marked text, and the orchestrator still
writes exactly one terminal status for the job. -/
theorem C2_adapter_never_fails (cfg : ModelConfig) (loads : String → Option PyVal)
    (prompt msg out : String) :
    (onlineModel cfg = true →
      isErrorResult (call_model cfg loads (ApiOutcome.raises msg) prompt) = true) ∧
    (onlineModel cfg = true →
      (∀ fields, extract_data loads out ≠ some (PyVal.dict fields)) →
      isErrorResult (call_model cfg loads (ApiOutcome.returns out) prompt) = true) ∧
    (∀ fields v, onlineModel cfg = true →
      extract_data loads out = some (PyVal.dict fields) →
      dictGet fields "confidence" = some v → pyFloat v = Option.none →
      isErrorResult (call_model cfg loads (ApiOutcome.returns out) prompt) = true) ∧
    (∀ dcfg doc page, onlineModel cfg = true →
      (∀ t b, (create_google_doc dcfg loads doc t b).isSome = true) →
      (terminalStatuses (process_page cfg dcfg loads (ApiOutcome.raises msg) doc page)).length
        = 1) := by
  refine ⟨?_, ?_, ?_, ?_⟩
  · intro h
    simp only [call_model, h, if_true]
    rfl
  · intro h hne
    cases hext : extract_data loads out with
    | none => simp only [call_model, h, if_true, hext]; rfl
    | some v =>
      cases v with
      | dict fields => exact absurd hext (hne fields)
      | none => simp only [call_model, h, if_true, hext]; rfl
      | bool b => simp only [call_model, h, if_true, hext]; rfl
      | num q => simp only [call_model, h, if_true, hext]; rfl
      | str s => simp only [call_model, h, if_true, hext]; rfl
      | list xs => simp only [call_model, h, if_true, hext]; rfl
  · intro fields v h hext hconf hfloat
    simp only [call_model, h, if_true, hext, hconf, Option.getD_some, hfloat]
    rfl
  · intro dcfg doc page h hdoc
    obtain ⟨u, hu⟩ := Option.isSome_iff_exists.mp
      (hdoc (pyOrStr page.name "Untitled")
        (if pyStrip ("[MODEL ERROR]\n" ++ msg) = ""
         then "(empty output for " ++ pyOrStr page.name "Untitled" ++ ")"
         else pyStrip ("[MODEL ERROR]\n" ++ msg)))
    simp only [process_page, call_model, h, if_true, modelErrorResult, stripOrCrash, hu]
    rw [terminalStatuses_full]
    rfl

/-- C2 witness: a raised network error on the online path yields the
zero-confidence error result. -/
theorem C2_adapter_never_fails_witness :
    isErrorResult (call_model onlineMCfg loadsNone
      (ApiOutcome.raises "connection error") "p") = true :=
  (C2_adapter_never_fails onlineMCfg loadsNone "p" "connection error" "").1 rfl

/-- A crash-free model text and a completing publisher give a full
four-event trace (helper for the lifecycle claims). -/
theorem process_page_full (mcfg : ModelConfig) (dcfg : DriveConfig)
    (loads : String → Option PyVal) (api : ApiOutcome) (doc : ExecOutcome)
    (page : Page) (t u : String)
    (hst : stripOrCrash (call_model mcfg loads api (pagePrompt page)).text = some t)
    (hdoc : create_google_doc dcfg loads doc (pyOrStr page.name "Untitled")
      (if t = "" then "(empty output for " ++ pyOrStr page.name "Untitled" ++ ")" else t)
      = some u) :
    process_page mcfg dcfg loads api doc page =
      [Event.updateStatus "Running" Option.none Option.none,
       Event.modelCall (pagePrompt page),
       Event.publish (pyOrStr page.name "Untitled")
         (if t = "" then "(empty output for " ++ pyOrStr page.name "Untitled" ++ ")" else t),
       Event.updateStatus
         (decideStatus (pyOrStr page.publishMode "Needs Review")
           (call_model mcfg loads api (pagePrompt page)).confidence
           (pyOrNum page.confidenceGate (mkRat 7 10)))
         (some u) (some (call_model mcfg loads api (pagePrompt page)).confidence)] := by
  simp only [process_page, hst, hdoc]

/-- C3: the `Running` write is the first action of every per-job trace,
strictly before any external side effect; at most one terminal status is
ever written, and whenever the model call hands back a string and the
publish call completes, exactly one terminal status is written and it
comes after the publish. -/
theorem C3_lifecycle (mcfg : ModelConfig) (dcfg : DriveConfig)
    (loads : String → Option PyVal) (api : ApiOutcome) (doc : ExecOutcome)
    (page : Page) :
    ((process_page mcfg dcfg loads api doc page).head? =
      some (Event.updateStatus "Running" Option.none Option.none)) ∧
    (∀ j e, (process_page mcfg dcfg loads api doc page).get? j = some e →
      isSideEffect e = true → 0 < j) ∧
    ((terminalStatuses (process_page mcfg dcfg loads api doc page)).length ≤ 1) ∧
    ((∃ s, (call_model mcfg loads api (pagePrompt page)).text = PyVal.str s) →
     (∀ t b, (create_google_doc dcfg loads doc t b).isSome = true) →
     (terminalStatuses (process_page mcfg dcfg loads api doc page)).length = 1 ∧
     ∀ i e, (process_page mcfg dcfg loads api doc page).get? i = some e →
       isTerminalWrite e = true →
       ∃ j t b, j < i ∧ (process_page mcfg dcfg loads api doc page).get? j =
         some (Event.publish t b)) := by
  cases hst : stripOrCrash (call_model mcfg loads api (pagePrompt page)).text with
  | none =>
    refine ⟨?_, ?_, ?_, ?_⟩
    · simp [process_page, hst]
    · intro j e hj hse
      cases j with
      | zero =>
        simp only [process_page, hst, List.get?] at hj
        cases hj
        simp [isSideEffect] at hse
      | succ j => exact Nat.succ_pos j
    · simp [process_page, hst, terminalStatuses]
    · rintro ⟨s, hs⟩ _
      rw [hs] at hst
      simp [stripOrCrash] at hst
  | some t =>
    cases hdoc : create_google_doc dcfg loads doc (pyOrStr page.name "Untitled")
        (if t = "" then "(empty output for " ++ pyOrStr page.name "Untitled" ++ ")" else t) with
    | none =>
      refine ⟨?_, ?_, ?_, ?_⟩
      · simp [process_page, hst, hdoc]
      · intro j e hj hse
        cases j with
        | zero =>
          simp only [process_page, hst, hdoc, List.get?] at hj
          cases hj
          simp [isSideEffect] at hse
        | succ j => exact Nat.succ_pos j
      · simp [process_page, hst, hdoc, terminalStatuses]
      · intro _ hdoc2
        have := hdoc2 (pyOrStr page.name "Untitled")
          (if t = "" then "(empty output for " ++ pyOrStr page.name "Untitled" ++ ")" else t)
        rw [hdoc] at this
        simp at this
    | some u =>
      have htr := process_page_full mcfg dcfg loads api doc page t u hst hdoc
      refine ⟨?_, ?_, ?_, ?_⟩
      · rw [htr]; rfl
      · intro j e hj hse
        cases j with
        | zero =>
          rw [htr] at hj
          simp only [List.get?] at hj
          cases hj
          simp [isSideEffect] at hse
        | succ j => exact Nat.succ_pos j
      · rw [htr, terminalStatuses_full]
        simp
      · intro _ _
        constructor
        · rw [htr, terminalStatuses_full]
          rfl
        · intro i e hi ht
          rw [htr] at hi
          match i, hi with
          | 0, hi => cases hi; simp [isTerminalWrite] at ht
          | 1, hi => cases hi; simp [isTerminalWrite] at ht
          | 2, hi => cases hi; simp [isTerminalWrite] at ht
          | 3, hi =>
            rw [htr]
            exact ⟨2, pyOrStr page.name "Untitled",
              (if t = "" then "(empty output for " ++ pyOrStr page.name "Untitled" ++ ")" else t),
              by omega, rfl⟩

/-- C3 witness: a concrete offline run with an unconfigured publisher
writes exactly one terminal status. -/
theorem C3_lifecycle_witness :
    (terminalStatuses (process_page offlineMCfg noDriveCfg loadsNone
      (ApiOutcome.raises "x") (ExecOutcome.ok "d") gateZeroPage)).length = 1 :=
  ((C3_lifecycle offlineMCfg noDriveCfg loadsNone (ApiOutcome.raises "x")
      (ExecOutcome.ok "d") gateZeroPage).2.2.2 ⟨_, rfl⟩ (fun t b => rfl)).1

/-- A drive configuration whose service-account value is set but is not
valid JSON (`json.loads` raises on it). -/
def badJsonDriveCfg : DriveConfig := ⟨some "not json", true⟩

/-- A well-formed service-account JSON string. -/
def saJson : String := "\x7b\"client_email\": \"a@b\"\x7d"

/-- JSON oracle that parses exactly `saJson` (as `json.loads` would). -/
def loadsSa : String → Option PyVal := fun s =>
  if s == saJson then some (PyVal.dict [("client_email", PyVal.str "a@b")])
  else Option.none

/-- A fully configured drive configuration. -/
def saDriveCfg : DriveConfig := ⟨some saJson, true⟩

/-- C4 counterexample: the publisher can fail to return a URL at all.
With a malformed credential string, `json.loads` raises outside any
handler; with valid credentials, a non-`HttpError` exception (for
example a transport failure while the service is unreachable) is not
caught by `except HttpError`.  Both contradict "never propagates a
failure" and "the returned proof URL is always non-null". -/
theorem C4_counterexample :
    create_google_doc badJsonDriveCfg loadsNone (ExecOutcome.ok "d") "T" "B"
      = Option.none ∧
    create_google_doc saDriveCfg loadsSa (ExecOutcome.raisesOther "connection error")
      "T" "B" = Option.none :=
  ⟨rfl, rfl⟩

/-- C4 (amended): when the document service is unconfigured (missing or
empty credential JSON, or missing client libraries) the publisher
returns the placeholder URL built from the title (spaces replaced by
underscores — the title itself when it has no spaces); an `HttpError`
raised by the remote API during creation is caught and converted into a
placeholder URL embedding the error message; a successful creation
returns the document link.  Exceptions other than `HttpError`, and a
malformed credential JSON, propagate instead of producing a URL. -/
theorem C4_publisher_amended (cfg : DriveConfig) (loads : String → Option PyVal)
    (outcome : ExecOutcome) (title body : String) :
    (keyPresent cfg.drive_sa_json = false ∨ cfg.googleApisAvailable = false →
      init_gdrive_clients cfg loads = InitClients.noClients) ∧
    (init_gdrive_clients cfg loads = InitClients.noClients →
      create_google_doc cfg loads outcome title body =
        some ("about:blank#" ++ underscoreTitle title)) ∧
    ((∀ c ∈ title.data, c ≠ ' ') → underscoreTitle title = title) ∧
    (∀ e, init_gdrive_clients cfg loads = InitClients.clients →
      create_google_doc cfg loads (ExecOutcome.httpError e) title body =
        some ("about:blank#error=" ++ e)) ∧
    (∀ i, init_gdrive_clients cfg loads = InitClients.clients →
      create_google_doc cfg loads (ExecOutcome.ok i) title body =
        some ("https://docs.google.com/document/d/" ++ i ++ "/edit")) ∧
    (init_gdrive_clients cfg loads = InitClients.raisesJson →
      create_google_doc cfg loads outcome title body = Option.none) ∧
    (∀ m, init_gdrive_clients cfg loads = InitClients.clients →
      create_google_doc cfg loads (ExecOutcome.raisesOther m) title body
        = Option.none) := by
  refine ⟨?_, ?_, ?_, ?_, ?_, ?_, ?_⟩
  · intro h
    cases hsa : cfg.drive_sa_json with
    | none => simp [init_gdrive_clients, hsa]
    | some sa =>
      rw [hsa] at h
      rcases h with h | h
      · have : (sa == "") = true := by
          simpa [keyPresent] using h
        simp [init_gdrive_clients, hsa, this]
      · simp [init_gdrive_clients, hsa, h]
  · intro h
    simp [create_google_doc, h]
  · intro h
    have h2 : title.data.map (fun c => if c = ' ' then '_' else c) = title.data := by
      have := List.map_congr_left (l := title.data)
        (f := fun c => if c = ' ' then '_' else c) (g := fun c => c)
        (by intro c hc; simp [h c hc])
      simpa using this
    simp [underscoreTitle, h2]
  · intro e h
    simp [create_google_doc, h]
  · intro i h
    simp [create_google_doc, h]
  · intro h
    simp [create_google_doc, h]
  · intro m h
    simp [create_google_doc, h]

/-- C4 witness: the unconfigured placeholder and the caught-`HttpError`
placeholder, at concrete inputs. -/
theorem C4_publisher_amended_witness :
    create_google_doc noDriveCfg loadsNone (ExecOutcome.ok "d") "My Title" "B" =
      some ("about:blank#" ++ underscoreTitle "My Title") ∧
    create_google_doc saDriveCfg loadsSa (ExecOutcome.httpError "HttpError 403")
      "T" "B" = some ("about:blank#error=" ++ "HttpError 403") :=
  ⟨(C4_publisher_amended noDriveCfg loadsNone (ExecOutcome.ok "d") "My Title" "B").2.1 rfl,
   (C4_publisher_amended saDriveCfg loadsSa (ExecOutcome.httpError "HttpError 403")
      "T" "B").2.2.2.1 "HttpError 403" rfl⟩

/-- A queue page in `Auto` mode with no stored confidence gate. -/
def autoPage : Page :=
  ⟨"pa", some "A", Option.none, Option.none, Option.none, some "Auto", Option.none⟩

/-- C9: with no model API key configured, `call_model` returns the
deterministic offline stub with confidence exactly `0.7`; an `Auto`-mode
job with the default gate `0.7` therefore ends in `Done` in offline
mode. -/
theorem C9_offline_stub (mcfg : ModelConfig) (loads : String → Option PyVal)
    (api : ApiOutcome) (prompt : String) (dcfg : DriveConfig) (doc : ExecOutcome)
    (page : Page) :
    (onlineModel mcfg = false →
      (call_model mcfg loads api prompt).confidence = mkRat 7 10 ∧
      (call_model mcfg loads api prompt).text =
        PyVal.str ("[OFFLINE DUMMY OUTPUT]\n\n" ++ strTake 2000 prompt)) ∧
    (onlineModel mcfg = false → page.publishMode = some "Auto" →
      page.confidenceGate = Option.none →
      (∀ t b, (create_google_doc dcfg loads doc t b).isSome = true) →
      terminalStatuses (process_page mcfg dcfg loads api doc page) = ["Done"]) := by
  constructor
  · intro h
    constructor <;> simp [call_model, h]
  · intro h hmode hgate hdoc
    obtain ⟨u, hu⟩ := Option.isSome_iff_exists.mp
      (hdoc (pyOrStr page.name "Untitled")
        (if pyStrip ("[OFFLINE DUMMY OUTPUT]\n\n" ++ strTake 2000 (pagePrompt page)) = ""
         then "(empty output for " ++ pyOrStr page.name "Untitled" ++ ")"
         else pyStrip ("[OFFLINE DUMMY OUTPUT]\n\n" ++ strTake 2000 (pagePrompt page))))
    simp only [process_page, call_model, h, Bool.false_eq_true, if_false,
      stripOrCrash, hu, hmode, hgate]
    rw [terminalStatuses_full]
    have : decideStatus (pyOrStr (some "Auto") "Needs Review") (mkRat 7 10)
        (pyOrNum Option.none (mkRat 7 10)) = "Done" := by
      simp [decideStatus, pyOrStr, pyOrNum]
    rw [this]

/-- C9 witness: the offline stub's confidence, and a concrete offline
`Auto`-mode run ending in `Done`. -/
theorem C9_offline_stub_witness :
    (call_model offlineMCfg loadsNone (ApiOutcome.raises "x") "p").confidence
      = mkRat 7 10 ∧
    terminalStatuses (process_page offlineMCfg noDriveCfg loadsNone
      (ApiOutcome.raises "x") (ExecOutcome.ok "d") autoPage) = ["Done"] :=
  ⟨((C9_offline_stub offlineMCfg loadsNone (ApiOutcome.raises "x") "p" noDriveCfg
      (ExecOutcome.ok "d") autoPage).1 rfl).1,
   (C9_offline_stub offlineMCfg loadsNone (ApiOutcome.raises "x") "p" noDriveCfg
      (ExecOutcome.ok "d") autoPage).2 rfl rfl rfl (fun t b => rfl)⟩

/-- A raw model payload whose confidence value is the non-numeric string
`"high"`. -/
def rawHigh : String := "\x7b\"text\": \"hi\", \"confidence\": \"high\"\x7d"

/-- JSON oracle parsing exactly `rawHigh` to its dictionary. -/
def loadsHigh : String → Option PyVal := fun s =>
  if s == rawHigh then
    some (PyVal.dict [("text", PyVal.str "hi"), ("confidence", PyVal.str "high")])
  else Option.none

/-- C6 counterexample: a present but non-numeric confidence value does
not default to `0.7` — `float("high")` raises, the handler returns the
degraded result, and the recorded confidence is `0`. -/
theorem C6_counterexample :
    (call_model onlineMCfg loadsHigh (ApiOutcome.returns rawHigh) "p").confidence = 0 ∧
    (0 : ℚ) ≠ mkRat 7 10 :=
  ⟨rfl, by decide⟩

/-- C6 (amended): if direct parsing fails, the adapter retries on the
substring from the first opening curly bracket to the last closing one;
the confidence defaults to `0.7` when the key is absent, but a present
non-numeric value makes the float conversion raise, so the adapter
returns the degraded error result with confidence `0.0` instead. -/
theorem C6_parse_amended (cfg : ModelConfig) (loads : String → Option PyVal)
    (out prompt : String) (i j : Nat) (fields : List (String × PyVal)) (v : PyVal) :
    (loads out = Option.none → strFind out lbrace = some i →
      strRFind out rbrace = some j → i < j →
      extract_data loads out = loads (strSlice out i (j + 1))) ∧
    (onlineModel cfg = true → extract_data loads out = some (PyVal.dict fields) →
      dictGet fields "confidence" = Option.none →
      (call_model cfg loads (ApiOutcome.returns out) prompt).confidence = mkRat 7 10) ∧
    (onlineModel cfg = true → extract_data loads out = some (PyVal.dict fields) →
      dictGet fields "confidence" = some v → pyFloat v = Option.none →
      isErrorResult (call_model cfg loads (ApiOutcome.returns out) prompt) = true) := by
  refine ⟨?_, ?_, ?_⟩
  · intro h hf hr hlt
    simp [extract_data, h, hf, hr, hlt]
  · intro h hext hconf
    simp [call_model, h, hext, hconf, pyFloat]
  · intro h hext hconf hfloat
    simp only [call_model, h, if_true, hext, hconf, Option.getD_some, hfloat]
    rfl

/-- A raw payload with text around the JSON object, so that direct
parsing fails and the bracket substring is used. -/
def rawNoise : String := "note: \x7b\"text\": \"t\"\x7d end"

/-- The JSON object embedded in `rawNoise` (no confidence key). -/
def innerJson : String := "\x7b\"text\": \"t\"\x7d"

/-- JSON oracle parsing exactly `innerJson`; the surrounding noise makes
every other input fail, as `json.loads` would. -/
def loadsInner : String → Option PyVal := fun s =>
  if s == innerJson then some (PyVal.dict [("text", PyVal.str "t")])
  else Option.none

/-- C6 witness: on `rawNoise` the adapter parses the bracket substring,
and the missing confidence key defaults to `0.7`. -/
theorem C6_parse_amended_witness :
    extract_data loadsInner rawNoise = loadsInner (strSlice rawNoise 6 19) ∧
    (call_model onlineMCfg loadsInner (ApiOutcome.returns rawNoise) "p").confidence
      = mkRat 7 10 :=
  ⟨(C6_parse_amended onlineMCfg loadsInner rawNoise "p" 6 18
      [("text", PyVal.str "t")] PyVal.none).1 rfl rfl rfl (by omega),
   (C6_parse_amended onlineMCfg loadsInner rawNoise "p" 6 18
      [("text", PyVal.str "t")] PyVal.none).2.1 rfl rfl rfl⟩

/-- A raw model payload whose text is a single space (whitespace-only
after stripping) with a passing confidence. -/
def rawWS : String := "\x7b\"text\": \" \", \"confidence\": 0.9\x7d"

/-- JSON oracle parsing exactly `rawWS` to its dictionary. -/
def loadsWS : String → Option PyVal := fun s =>
  if s == rawWS then
    some (PyVal.dict [("text", PyVal.str " "), ("confidence", PyVal.num (mkRat 9 10))])
  else Option.none

/-- A queue page named `Job X` with no other fields set. -/
def wsPage : Page :=
  ⟨"pz", some "Job X", Option.none, Option.none, Option.none, Option.none, Option.none⟩

/-- C10: when the model result text strips to the empty string, the body
handed to the document publisher is the placeholder
`(empty output for <job name>)`, never an empty body. -/
theorem C10_empty_text_placeholder (mcfg : ModelConfig) (dcfg : DriveConfig)
    (loads : String → Option PyVal) (api : ApiOutcome) (doc : ExecOutcome)
    (page : Page) (raw : String) :
    (call_model mcfg loads api (pagePrompt page)).text = PyVal.str raw →
    pyStrip raw = "" →
    ∀ t b, Event.publish t b ∈ process_page mcfg dcfg loads api doc page →
      b = "(empty output for " ++ pyOrStr page.name "Untitled" ++ ")" := by
  intro hraw hstrip t b hmem
  have hst : stripOrCrash (call_model mcfg loads api (pagePrompt page)).text
      = some "" := by
    rw [hraw]; simp [stripOrCrash, hstrip]
  simp only [process_page, hst, if_pos rfl, if_true] at hmem
  cases hdoc : create_google_doc dcfg loads doc (pyOrStr page.name "Untitled")
      ("(empty output for " ++ pyOrStr page.name "Untitled" ++ ")") with
  | none =>
    rw [hdoc] at hmem
    simp at hmem
    exact hmem.2
  | some u =>
    rw [hdoc] at hmem
    simp at hmem
    exact hmem.2

/-- C10 witness: a run whose parsed text is a single space publishes the
placeholder body for job `Job X`. -/
theorem C10_empty_text_placeholder_witness :
    "(empty output for Job X)" =
      "(empty output for " ++ pyOrStr wsPage.name "Untitled" ++ ")" :=
  C10_empty_text_placeholder onlineMCfg noDriveCfg loadsWS (ApiOutcome.returns rawWS)
    (ExecOutcome.ok "d") wsPage " " rfl rfl "Job X" "(empty output for Job X)"
    (by decide)

end Ranemos
